import Mathlib

/-!
Memory regions demo (`src/ctowasm/PLACECODEHERE.c`)

The program declares one array in the data segment (`global_string`), one in
the frame of `main` (`stack_string`), and fills a block obtained from `malloc`
(`heap_string`) with twenty single-character stores.

Embedding: memory is a byte-addressed map from addresses to character values.
Where the linker puts `global_string`, where the frame of `main` puts
`stack_string`, what the memory held before, and what `malloc` answers are
parameters of a run (`Env`).  `main` is written by explicit state passing, one
`store` per assignment of the source, in source order.  A store through a null
pointer, or past the end of the allocated block, sets a fault in the state and
the statements after it do not run.  Addresses are natural numbers; address
arithmetic does not wrap.
-/

namespace CSlang

/-- Byte-addressed memory: address to character value. -/
abbrev Mem := Nat → Nat

/-- The value of `sizeof(char)`. -/
def sizeof_char : Nat := 1

/-- Contents of `char a[] = "...";`: the characters of the literal followed by
the terminating zero. -/
def arrayOfLiteral (s : String) : List Nat :=
  s.toList.map Char.toNat ++ [0]

/-- The initialiser of `char global_string[] = "THIS IS ON THE DATA SEGMENT";`. -/
def global_string : List Nat :=
  arrayOfLiteral ("THIS IS ON THE DATA SEGMENT")

/-- The initialiser of `char stack_string[] = "THIS IS ON THE STACK";`. -/
def stack_string : List Nat :=
  arrayOfLiteral ("THIS IS ON THE STACK")

/-- Copy `bytes` into memory starting at `addr`; other addresses keep their value. -/
def writeBytes (m : Mem) (addr : Nat) (bytes : List Nat) : Mem :=
  fun a =>
    if addr ≤ a then
      match bytes.get? (a - addr) with
      | some b => b
      | none => m a
    else m a

/-- The `n` characters stored at `addr`, `addr + 1`, ... -/
def readBytes (m : Mem) (addr n : Nat) : List Nat :=
  (List.range n).map (fun i => m (addr + i))

/-- The text of a character buffer: what precedes its first zero. -/
def textOf (buf : List Nat) : List Nat :=
  buf.takeWhile (fun c => c != 0)

/-- A block handed out by the allocator. -/
structure Block where
  base : Nat
  size : Nat
deriving DecidableEq, Repr

/-- Why an indexed store did not happen, with the index of the store. -/
inductive Fault where
  | nullDeref (index : Nat)
  | outOfBounds (index : Nat)
deriving DecidableEq, Repr

/-- The address ranges `[a, a + n)` and `[b, b + k)` do not meet. -/
def disjoint (a n b k : Nat) : Prop :=
  a + n ≤ b ∨ b + k ≤ a

instance (a n b k : Nat) : Decidable (disjoint a n b k) :=
  inferInstanceAs (Decidable (a + n ≤ b ∨ b + k ≤ a))

/-- What a run of the program depends on. -/
structure Env where
  /-- memory before the program is loaded -/
  mem0 : Mem
  /-- address the linker gives `global_string` -/
  global_addr : Nat
  /-- address of `stack_string` in the frame of `main` -/
  stack_addr : Nat
  /-- the allocator: requested size to base address, `none` for a null result -/
  malloc : Nat → Option Nat
  /-- the two arrays are distinct objects: their storage does not overlap -/
  arrays_apart : disjoint global_addr global_string.length stack_addr stack_string.length

/-- State of `main` while it executes. -/
structure State where
  mem : Mem
  /-- the pointer variable `heap_string` -/
  heap_string : Option Block
  /-- set by the first store that could not be performed; later statements do not run -/
  fault : Option Fault
  /-- the stores performed so far, oldest first, as (index, value) -/
  stores : List (Nat × Nat)

/-- Program load: the data segment receives the initialiser of `global_string`. -/
def load (env : Env) : Mem :=
  writeBytes env.mem0 env.global_addr global_string

/-- Entry to `main`: `stack_string` is initialised in the frame. -/
def main_entry (env : Env) (m : Mem) : Mem :=
  writeBytes m env.stack_addr stack_string

/-- The statement `char* heap_string = malloc(sizeof(char) * 20);`. -/
def main_malloc (env : Env) (m : Mem) : State :=
  { mem := m
    heap_string :=
      (env.malloc (sizeof_char * 20)).map (fun b => Block.mk b (sizeof_char * 20))
    fault := none
    stores := [] }

/-- The statement `heap_string[i] = c;`. -/
def store (i c : Nat) (s : State) : State :=
  match s.fault with
  | some _ => s
  | none =>
    match s.heap_string with
    | none => { s with fault := some (Fault.nullDeref i) }
    | some b =>
      if i * sizeof_char + sizeof_char ≤ b.size then
        { s with
          mem := fun a => if a = b.base + i * sizeof_char then c else s.mem a
          stores := s.stores ++ [(i, c)] }
      else { s with fault := some (Fault.outOfBounds i) }

/-- The twenty assignments of `main`, in source order. -/
def main_stores (s : State) : State :=
  s |> store 0 (Char.toNat 'T')
    |> store 1 (Char.toNat 'H')
    |> store 2 (Char.toNat 'I')
    |> store 3 (Char.toNat 'S')
    |> store 4 (Char.toNat ' ')
    |> store 5 (Char.toNat 'I')
    |> store 6 (Char.toNat 'S')
    |> store 7 (Char.toNat ' ')
    |> store 8 (Char.toNat 'O')
    |> store 9 (Char.toNat 'N')
    |> store 10 (Char.toNat ' ')
    |> store 11 (Char.toNat 'T')
    |> store 12 (Char.toNat 'H')
    |> store 13 (Char.toNat 'E')
    |> store 14 (Char.toNat ' ')
    |> store 15 (Char.toNat 'H')
    |> store 16 (Char.toNat 'E')
    |> store 17 (Char.toNat 'A')
    |> store 18 (Char.toNat 'P')
    |> store 19 (Char.toNat '\x00')

/-- The function `main`, run on the memory it finds. -/
def main (env : Env) (m : Mem) : State :=
  main_stores (main_malloc env (main_entry env m))

/-- A whole run: load, then `main`. -/
def run (env : Env) : State :=
  main env (load env)

/-- The zero character sits at the last index of `buf` and at no other index. -/
def terminatedAtEnd (buf : List Nat) : Prop :=
  0 < buf.length ∧ ∀ i : Fin buf.length, buf.get i = 0 ↔ i.val + 1 = buf.length

instance (buf : List Nat) : Decidable (terminatedAtEnd buf) :=
  inferInstanceAs (Decidable (0 < buf.length ∧
    ∀ i : Fin buf.length, buf.get i = 0 ↔ i.val + 1 = buf.length))

/-- State in which the stores start: nothing stored yet, no fault. -/
def startState (m : Mem) (p : Option Block) : State :=
  { mem := m, heap_string := p, fault := none, stores := [] }

/-- A sample run: memory filled with the value 170, allocator answering address 4096. -/
def sampleEnv : Env :=
  { mem0 := fun _ => 170, global_addr := 1024, stack_addr := 65000
    malloc := fun _ => some 4096
    arrays_apart := by decide }

/-- Another sample run: memory full of junk, different addresses everywhere. -/
def otherEnv : Env :=
  { mem0 := fun a => 1 + a % 255, global_addr := 2048, stack_addr := 70000
    malloc := fun _ => some 8192
    arrays_apart := by decide }

/-- A sample run in which the allocator has nothing to give. -/
def exhaustedEnv : Env :=
  { mem0 := fun _ => 0, global_addr := 1024, stack_addr := 65000
    malloc := fun _ => none
    arrays_apart := by decide }


/-! ## Memory lemmas -/

theorem writeBytes_outside (m : Mem) (addr : Nat) (bytes : List Nat) (a : Nat)
    (h : a < addr ∨ addr + bytes.length ≤ a) : writeBytes m addr bytes a = m a := by
  unfold writeBytes
  split
  · next hle =>
    have hlen : bytes.length ≤ a - addr := by omega
    rw [List.get?_eq_none.mpr hlen]
  · rfl

theorem writeBytes_inside (m : Mem) (addr : Nat) (bytes : List Nat) (i : Nat)
    (h : i < bytes.length) : writeBytes m addr bytes (addr + i) = bytes.get ⟨i, h⟩ := by
  unfold writeBytes
  have hle : addr ≤ addr + i := Nat.le_add_right _ _
  rw [if_pos hle, Nat.add_sub_cancel_left, List.get?_eq_get h]

theorem readBytes_congr (m m' : Mem) (addr n : Nat)
    (h : ∀ i, i < n → m (addr + i) = m' (addr + i)) :
    readBytes m addr n = readBytes m' addr n := by
  unfold readBytes
  apply List.map_congr_left
  intro i hi
  exact h i (List.mem_range.mp hi)

theorem readBytes_writeBytes (m : Mem) (addr : Nat) (bytes : List Nat) :
    readBytes (writeBytes m addr bytes) addr bytes.length = bytes := by
  apply List.ext_get
  · simp [readBytes]
  · intro i h1 h2
    simp [readBytes, writeBytes_inside m addr bytes i h2]

/-! ## The twenty stores -/

theorem store_null (i c : Nat) (m : Mem) (l : List (Nat × Nat)) :
    store i c (State.mk m none none l) = State.mk m none (some (Fault.nullDeref i)) l := rfl

theorem store_faulted (i c : Nat) (m : Mem) (p : Option Block) (f : Fault)
    (l : List (Nat × Nat)) :
    store i c (State.mk m p (some f) l) = State.mk m p (some f) l := rfl

theorem store_inside (i c : Nat) (m : Mem) (base size : Nat) (l : List (Nat × Nat))
    (hi : i < size) :
    store i c (State.mk m (some (Block.mk base size)) none l) =
      State.mk (fun a => if a = base + i then c else m a)
        (some (Block.mk base size)) none (l ++ [(i, c)]) := by
  have hb : i + 1 ≤ size := hi
  simp [store, hb, sizeof_char]

theorem main_stores_null (m : Mem) :
    main_stores (startState m none) =
      { mem := m, heap_string := none, fault := some (Fault.nullDeref 0), stores := [] } := by
  simp only [main_stores, startState, store_null, store_faulted]

theorem main_stores_fault (m : Mem) (h : Nat) :
    (main_stores (startState m (some (Block.mk h 20)))).fault = none := by
  simp [main_stores, startState, store_inside]

theorem main_stores_heap_string (m : Mem) (h : Nat) :
    (main_stores (startState m (some (Block.mk h 20)))).heap_string = some (Block.mk h 20) := by
  simp [main_stores, startState, store_inside]

theorem main_stores_log (m : Mem) (h : Nat) :
    (main_stores (startState m (some (Block.mk h 20)))).stores =
      [(0, 84), (1, 72), (2, 73), (3, 83), (4, 32), (5, 73), (6, 83), (7, 32), (8, 79),
       (9, 78), (10, 32), (11, 84), (12, 72), (13, 69), (14, 32), (15, 72), (16, 69),
       (17, 65), (18, 80), (19, 0)] := by
  simp [main_stores, startState, store_inside]

theorem main_stores_read (m : Mem) (h : Nat) :
    readBytes (main_stores (startState m (some (Block.mk h 20)))).mem h 20 =
      [84, 72, 73, 83, 32, 73, 83, 32, 79, 78, 32, 84, 72, 69, 32, 72, 69, 65, 80, 0] := by
  simp [main_stores, startState, store_inside, readBytes, List.range, List.range.loop]

theorem main_stores_outside (m : Mem) (h a : Nat) (ha : a < h ∨ h + 20 ≤ a) :
    (main_stores (startState m (some (Block.mk h 20)))).mem a = m a := by
  simp only [main_stores, startState, store_inside, Nat.lt_add_one, Nat.reduceLT]
  repeat (first | rw [if_neg (by omega)] | rfl)

/-! ## Whole runs -/

theorem global_string_length : global_string.length = 28 := by decide

theorem stack_string_length : stack_string.length = 21 := by decide

theorem run_of_malloc_some (env : Env) (h : Nat) (hm : env.malloc (sizeof_char * 20) = some h) :
    run env = main_stores (startState (main_entry env (load env)) (some (Block.mk h 20))) := by
  have hm' : env.malloc 20 = some h := hm
  simp [run, main, main_malloc, startState, hm', sizeof_char]

theorem run_of_malloc_none (env : Env) (hm : env.malloc (sizeof_char * 20) = none) :
    run env = State.mk (main_entry env (load env)) none (some (Fault.nullDeref 0)) [] := by
  have hm' : env.malloc 20 = none := hm
  have h : run env = main_stores (startState (main_entry env (load env)) none) := by
    simp [run, main, main_malloc, startState, hm', sizeof_char]
  rw [h, main_stores_null]

theorem run_read_heap (env : Env) (h : Nat) (hm : env.malloc (sizeof_char * 20) = some h) :
    readBytes (run env).mem h 20 =
      [84, 72, 73, 83, 32, 73, 83, 32, 79, 78, 32, 84, 72, 69, 32, 72, 69, 65, 80, 0] := by
  rw [run_of_malloc_some env h hm, main_stores_read]

theorem run_mem_outside_heap (env : Env) (h a : Nat)
    (hm : env.malloc (sizeof_char * 20) = some h) (ha : a < h ∨ h + 20 ≤ a) :
    (run env).mem a = main_entry env (load env) a := by
  rw [run_of_malloc_some env h hm, main_stores_outside _ _ _ ha]

theorem run_read_stack (env : Env) (h : Nat) (hm : env.malloc (sizeof_char * 20) = some h)
    (hhs : disjoint h (sizeof_char * 20) env.stack_addr stack_string.length) :
    readBytes (run env).mem env.stack_addr stack_string.length = stack_string := by
  have e : readBytes (run env).mem env.stack_addr stack_string.length =
      readBytes (main_entry env (load env)) env.stack_addr stack_string.length := by
    apply readBytes_congr
    intro i hi
    apply run_mem_outside_heap env h _ hm
    simp only [disjoint, sizeof_char, stack_string_length] at hhs hi
    omega
  rw [e]
  exact readBytes_writeBytes _ _ _

theorem run_read_global (env : Env) (h : Nat) (hm : env.malloc (sizeof_char * 20) = some h)
    (hhg : disjoint h (sizeof_char * 20) env.global_addr global_string.length) :
    readBytes (run env).mem env.global_addr global_string.length = global_string := by
  have e : readBytes (run env).mem env.global_addr global_string.length =
      readBytes (load env) env.global_addr global_string.length := by
    apply readBytes_congr
    intro i hi
    have hgs := env.arrays_apart
    simp only [disjoint, sizeof_char, stack_string_length, global_string_length] at hgs hhg hi
    rw [run_mem_outside_heap env h _ hm (by omega)]
    apply writeBytes_outside
    rw [stack_string_length]
    omega
  rw [e]
  exact readBytes_writeBytes _ _ _

/-! ## The three buffers -/

/-- C1: in every run where `malloc` succeeds, `main` returns without a fault and
the block `heap_string` points to then holds, at indices 0 to 18, the characters
T,H,I,S,space,I,S,space,O,N,space,T,H,E,space,H,E,A,P in that order and, at
index 19, the terminator 0; the text read from it is "THIS IS ON THE HEAP". -/
theorem heap_string_after_main (env : Env) (h : Nat)
    (hm : env.malloc (sizeof_char * 20) = some h) :
    (run env).fault = none ∧
    (run env).heap_string = some (Block.mk h 20) ∧
    readBytes (run env).mem h 20 =
      (['T', 'H', 'I', 'S', ' ', 'I', 'S', ' ', 'O', 'N', ' ', 'T', 'H', 'E', ' ',
        'H', 'E', 'A', 'P'].map Char.toNat) ++ [0] ∧
    textOf (readBytes (run env).mem h 20) =
      (String.toList ("THIS IS ON THE HEAP")).map Char.toNat := by
  refine ⟨?_, ?_, ?_, ?_⟩
  · rw [run_of_malloc_some env h hm, main_stores_fault]
  · rw [run_of_malloc_some env h hm, main_stores_heap_string]
  · rw [run_read_heap env h hm]; decide
  · rw [run_read_heap env h hm]; decide

/-- The statement of C1 on the sample run, whose allocator answers 4096. -/
theorem heap_string_after_main_witness :
    sampleEnv.malloc (sizeof_char * 20) = some 4096 ∧
    ((run sampleEnv).fault = none ∧
     (run sampleEnv).heap_string = some (Block.mk 4096 20) ∧
     readBytes (run sampleEnv).mem 4096 20 =
      (['T', 'H', 'I', 'S', ' ', 'I', 'S', ' ', 'O', 'N', ' ', 'T', 'H', 'E', ' ',
        'H', 'E', 'A', 'P'].map Char.toNat) ++ [0] ∧
     textOf (readBytes (run sampleEnv).mem 4096 20) =
      (String.toList ("THIS IS ON THE HEAP")).map Char.toNat) :=
  ⟨rfl, heap_string_after_main sampleEnv 4096 rfl⟩

/-- C2: whatever the memory held before, after program load the 28 cells of
`global_string` are exactly the characters of "THIS IS ON THE DATA SEGMENT" in
order followed by one terminator 0. -/
theorem global_string_at_load (env : Env) :
    global_string.length = 28 ∧
    readBytes (load env) env.global_addr global_string.length =
      (['T', 'H', 'I', 'S', ' ', 'I', 'S', ' ', 'O', 'N', ' ', 'T', 'H', 'E', ' ',
        'D', 'A', 'T', 'A', ' ', 'S', 'E', 'G', 'M', 'E', 'N', 'T'].map Char.toNat) ++ [0] := by
  refine ⟨global_string_length, ?_⟩
  unfold load
  rw [readBytes_writeBytes]
  decide

/-- C3: whatever the memory held before, at entry to `main` the 21 cells of
`stack_string` are exactly the characters of "THIS IS ON THE STACK" in order
followed by one terminator 0. -/
theorem stack_string_at_entry (env : Env) (m : Mem) :
    stack_string.length = 21 ∧
    readBytes (main_entry env m) env.stack_addr stack_string.length =
      (['T', 'H', 'I', 'S', ' ', 'I', 'S', ' ', 'O', 'N', ' ', 'T', 'H', 'E', ' ',
        'S', 'T', 'A', 'C', 'K'].map Char.toNat) ++ [0] := by
  refine ⟨stack_string_length, ?_⟩
  unfold main_entry
  rw [readBytes_writeBytes]
  decide

/-- C4, as the spec states it, fails: in the sample run the text read from
`global_string` is not 28 characters long, and the buffer is not 28 characters
plus a terminator. -/
theorem global_string_text_not_28 :
    (textOf (readBytes (load sampleEnv) sampleEnv.global_addr global_string.length)).length
        ≠ 28 ∧
      global_string.length ≠ 28 + 1 := by
  decide

/-- C4, amended: the text read from `global_string` before its terminator is 27
characters long, so the buffer is 27 characters plus the terminator, 28 in all. -/
theorem global_string_text_length (env : Env) :
    (textOf (readBytes (load env) env.global_addr global_string.length)).length = 27 ∧
    global_string.length = 27 + 1 := by
  unfold load
  rw [readBytes_writeBytes]
  decide

/-- C5, as the spec states it, fails: in the sample run the text read from
`stack_string` inside `main` is not 21 characters long, and the buffer is not 21
characters plus a terminator. -/
theorem stack_string_text_not_21 :
    (textOf (readBytes (main_entry sampleEnv (load sampleEnv)) sampleEnv.stack_addr
          stack_string.length)).length ≠ 21 ∧
      stack_string.length ≠ 21 + 1 := by
  decide

/-- C5, amended: the text read from `stack_string` inside `main` before its
terminator is 20 characters long, so the buffer is 20 characters plus the
terminator, 21 in all. -/
theorem stack_string_text_length (env : Env) (m : Mem) :
    (textOf (readBytes (main_entry env m) env.stack_addr stack_string.length)).length = 20 ∧
    stack_string.length = 20 + 1 := by
  unfold main_entry
  rw [readBytes_writeBytes]
  decide

/-! ## Termination of the strings, faults, bounds, frame -/

/-- C6: at the end of `main`, after a successful allocation into a block that
overlaps neither array, each of the three buffers has the terminator 0 at its
last index and at no earlier index,
and the length of its text is its capacity minus one. -/
theorem buffers_terminated_at_end (env : Env) (h : Nat)
    (hm : env.malloc (sizeof_char * 20) = some h)
    (hhg : disjoint h (sizeof_char * 20) env.global_addr global_string.length)
    (hhs : disjoint h (sizeof_char * 20) env.stack_addr stack_string.length) :
    (terminatedAtEnd (readBytes (run env).mem env.global_addr global_string.length) ∧
      (textOf (readBytes (run env).mem env.global_addr global_string.length)).length =
        global_string.length - 1) ∧
    (terminatedAtEnd (readBytes (run env).mem env.stack_addr stack_string.length) ∧
      (textOf (readBytes (run env).mem env.stack_addr stack_string.length)).length =
        stack_string.length - 1) ∧
    (terminatedAtEnd (readBytes (run env).mem h (sizeof_char * 20)) ∧
      (textOf (readBytes (run env).mem h (sizeof_char * 20))).length = sizeof_char * 20 - 1) := by
  rw [run_read_global env h hm hhg, run_read_stack env h hm hhs,
    show sizeof_char * 20 = 20 from rfl, run_read_heap env h hm]
  decide

/-- The statement of C6 on the sample run, whose allocator answers 4096. -/
theorem buffers_terminated_at_end_witness :
    (sampleEnv.malloc (sizeof_char * 20) = some 4096 ∧
      disjoint 4096 (sizeof_char * 20) sampleEnv.global_addr global_string.length ∧
      disjoint 4096 (sizeof_char * 20) sampleEnv.stack_addr stack_string.length) ∧
    ((terminatedAtEnd (readBytes (run sampleEnv).mem sampleEnv.global_addr
          global_string.length) ∧
      (textOf (readBytes (run sampleEnv).mem sampleEnv.global_addr
          global_string.length)).length = global_string.length - 1) ∧
    (terminatedAtEnd (readBytes (run sampleEnv).mem sampleEnv.stack_addr
          stack_string.length) ∧
      (textOf (readBytes (run sampleEnv).mem sampleEnv.stack_addr
          stack_string.length)).length = stack_string.length - 1) ∧
    (terminatedAtEnd (readBytes (run sampleEnv).mem 4096 (sizeof_char * 20)) ∧
      (textOf (readBytes (run sampleEnv).mem 4096 (sizeof_char * 20))).length =
        sizeof_char * 20 - 1)) :=
  ⟨⟨rfl, by decide, by decide⟩,
    buffers_terminated_at_end sampleEnv 4096 rfl (by decide) (by decide)⟩

/-- C7: `main` stores through the result of `malloc` without testing it.  The
run finishes in the null-handle fault exactly when `malloc` fails; the fault is then
raised by the first store (index 0), no store has been performed, and memory is
as it was at entry to `main`. -/
theorem null_fault_iff_malloc_fails (env : Env) :
    ((run env).fault = some (Fault.nullDeref 0) ↔ env.malloc (sizeof_char * 20) = none) ∧
    ((run env).fault ≠ none ↔ env.malloc (sizeof_char * 20) = none) ∧
    (env.malloc (sizeof_char * 20) = none →
      (run env).heap_string = none ∧ (run env).stores = [] ∧
      (run env).mem = main_entry env (load env)) := by
  cases hm : env.malloc (sizeof_char * 20) with
  | none =>
    rw [run_of_malloc_none env hm]
    simp
  | some h =>
    rw [run_of_malloc_some env h hm, main_stores_fault]
    simp

/-- The statement of C7 on the sample run whose allocator fails. -/
theorem null_fault_iff_malloc_fails_witness :
    exhaustedEnv.malloc (sizeof_char * 20) = none ∧
    (run exhaustedEnv).fault = some (Fault.nullDeref 0) ∧
    (run exhaustedEnv).heap_string = none ∧ (run exhaustedEnv).stores = [] ∧
    (run exhaustedEnv).mem = main_entry exhaustedEnv (load exhaustedEnv) :=
  ⟨rfl, (null_fault_iff_malloc_fails exhaustedEnv).1.mpr rfl,
    (null_fault_iff_malloc_fails exhaustedEnv).2.2 rfl⟩

/-- C8: `main` asks the allocator for `sizeof(char) * 20 = 20` characters, and
after a successful allocation it performs all twenty stores, at the indices
0, 1, ..., 19 in that order, each below 20; no store takes the out-of-bounds
branch and the run ends without a fault. -/
theorem stores_within_block (env : Env) (h : Nat)
    (hm : env.malloc (sizeof_char * 20) = some h) :
    sizeof_char * 20 = 20 ∧
    (∀ m, (main_malloc env m).heap_string =
      (env.malloc 20).map (fun b => Block.mk b 20)) ∧
    (run env).heap_string = some (Block.mk h 20) ∧
    (run env).stores.map Prod.fst = List.range 20 ∧
    (∀ p, p ∈ (run env).stores → p.1 < 20) ∧
    (∀ i, (run env).fault ≠ some (Fault.outOfBounds i)) ∧
    (run env).fault = none := by
  rw [run_of_malloc_some env h hm, main_stores_fault, main_stores_heap_string,
    main_stores_log]
  refine ⟨rfl, fun m => rfl, rfl, by decide, by decide, ?_, rfl⟩
  intro i hi
  cases hi

/-- The statement of C8 on the sample run, whose allocator answers 4096. -/
theorem stores_within_block_witness :
    sampleEnv.malloc (sizeof_char * 20) = some 4096 ∧
    (sizeof_char * 20 = 20 ∧
    (∀ m, (main_malloc sampleEnv m).heap_string =
      (sampleEnv.malloc 20).map (fun b => Block.mk b 20)) ∧
    (run sampleEnv).heap_string = some (Block.mk 4096 20) ∧
    (run sampleEnv).stores.map Prod.fst = List.range 20 ∧
    (∀ p, p ∈ (run sampleEnv).stores → p.1 < 20) ∧
    (∀ i, (run sampleEnv).fault ≠ some (Fault.outOfBounds i)) ∧
    (run sampleEnv).fault = none) :=
  ⟨rfl, stores_within_block sampleEnv 4096 rfl⟩

/-- C9: after a successful allocation into a block that overlaps neither
array, `global_string` holds after `main` what
it held at program load, `stack_string` holds after the twenty stores what it
held at entry to `main`, and `main` changes no cell outside `stack_string` and
the allocated block. -/
theorem main_leaves_buffers_unchanged (env : Env) (h : Nat)
    (hm : env.malloc (sizeof_char * 20) = some h)
    (hhg : disjoint h (sizeof_char * 20) env.global_addr global_string.length)
    (hhs : disjoint h (sizeof_char * 20) env.stack_addr stack_string.length) :
    readBytes (run env).mem env.global_addr global_string.length =
      readBytes (load env) env.global_addr global_string.length ∧
    readBytes (run env).mem env.stack_addr stack_string.length =
      readBytes (main_entry env (load env)) env.stack_addr stack_string.length ∧
    (∀ a, disjoint a 1 env.stack_addr stack_string.length → disjoint a 1 h (sizeof_char * 20) →
      (run env).mem a = load env a) := by
  refine ⟨?_, ?_, ?_⟩
  · rw [run_read_global env h hm hhg]
    exact (readBytes_writeBytes _ _ _).symm
  · rw [run_read_stack env h hm hhs]
    exact (readBytes_writeBytes _ _ _).symm
  · intro a has hah
    simp only [disjoint, sizeof_char] at has hah
    rw [run_mem_outside_heap env h a hm (by omega)]
    apply writeBytes_outside
    omega

/-- The statement of C9 on the sample run, whose allocator answers 4096. -/
theorem main_leaves_buffers_unchanged_witness :
    (sampleEnv.malloc (sizeof_char * 20) = some 4096 ∧
      disjoint 4096 (sizeof_char * 20) sampleEnv.global_addr global_string.length ∧
      disjoint 4096 (sizeof_char * 20) sampleEnv.stack_addr stack_string.length) ∧
    (readBytes (run sampleEnv).mem sampleEnv.global_addr global_string.length =
      readBytes (load sampleEnv) sampleEnv.global_addr global_string.length ∧
    readBytes (run sampleEnv).mem sampleEnv.stack_addr stack_string.length =
      readBytes (main_entry sampleEnv (load sampleEnv)) sampleEnv.stack_addr
        stack_string.length ∧
    (∀ a, disjoint a 1 sampleEnv.stack_addr stack_string.length →
      disjoint a 1 4096 (sizeof_char * 20) →
      (run sampleEnv).mem a = load sampleEnv a)) :=
  ⟨⟨rfl, by decide, by decide⟩,
    main_leaves_buffers_unchanged sampleEnv 4096 rfl (by decide) (by decide)⟩

/-- C10: two runs in which `malloc` succeeds, with any prior memory contents, any
placement of the arrays and any allocated address (each block overlapping
neither array of its run), end with equal
contents in `global_string`, in `stack_string` and in all 20 characters of
`heap_string`. -/
theorem runs_agree_on_buffers (env env' : Env) (h h' : Nat)
    (hm : env.malloc (sizeof_char * 20) = some h)
    (hhg : disjoint h (sizeof_char * 20) env.global_addr global_string.length)
    (hhs : disjoint h (sizeof_char * 20) env.stack_addr stack_string.length)
    (hm' : env'.malloc (sizeof_char * 20) = some h')
    (hhg' : disjoint h' (sizeof_char * 20) env'.global_addr global_string.length)
    (hhs' : disjoint h' (sizeof_char * 20) env'.stack_addr stack_string.length) :
    readBytes (run env).mem env.global_addr global_string.length =
      readBytes (run env').mem env'.global_addr global_string.length ∧
    readBytes (run env).mem env.stack_addr stack_string.length =
      readBytes (run env').mem env'.stack_addr stack_string.length ∧
    readBytes (run env).mem h 20 = readBytes (run env').mem h' 20 := by
  rw [run_read_global env h hm hhg, run_read_global env' h' hm' hhg',
    run_read_stack env h hm hhs, run_read_stack env' h' hm' hhs',
    run_read_heap env h hm, run_read_heap env' h' hm']
  exact ⟨rfl, rfl, rfl⟩

/-- The statement of C10 on the two sample runs, which differ in prior memory and in
every address. -/
theorem runs_agree_on_buffers_witness :
    ((sampleEnv.malloc (sizeof_char * 20) = some 4096 ∧
      disjoint 4096 (sizeof_char * 20) sampleEnv.global_addr global_string.length ∧
      disjoint 4096 (sizeof_char * 20) sampleEnv.stack_addr stack_string.length) ∧
     (otherEnv.malloc (sizeof_char * 20) = some 8192 ∧
      disjoint 8192 (sizeof_char * 20) otherEnv.global_addr global_string.length ∧
      disjoint 8192 (sizeof_char * 20) otherEnv.stack_addr stack_string.length)) ∧
    (readBytes (run sampleEnv).mem sampleEnv.global_addr global_string.length =
      readBytes (run otherEnv).mem otherEnv.global_addr global_string.length ∧
    readBytes (run sampleEnv).mem sampleEnv.stack_addr stack_string.length =
      readBytes (run otherEnv).mem otherEnv.stack_addr stack_string.length ∧
    readBytes (run sampleEnv).mem 4096 20 = readBytes (run otherEnv).mem 8192 20) :=
  ⟨⟨⟨rfl, by decide, by decide⟩, ⟨rfl, by decide, by decide⟩⟩,
    runs_agree_on_buffers sampleEnv otherEnv 4096 8192 rfl (by decide) (by decide)
      rfl (by decide) (by decide)⟩

end CSlang
